import Mathlib

/-!
# Verification of the dataset-synchronizer core (`data_processing.py`)

We give a shallow embedding of the `DBops` synchronization workflow:
`process_local_file` hashes the incoming dataset, checks the stored hash
record, and on a mismatch calls the embedding provider, replaces the
`faq_embeddings` rows (`insert_data`), deletes all `data_hash` records
(`delete_all_data_hashes`) and inserts the new fingerprint
(`update_data_hash`).

Modelling decisions, each faithful to the source:
* The relational store is a `Store`: the `faq_embeddings` rows and the set
  of `data_hash.file_hash` strings (kept as a duplicate-free-by-construction
  list; `file_hash` is `UNIQUE` in the DDL and `update_data_hash` inserts
  with `ON CONFLICT DO NOTHING`).
* External, non-embeddable functions (SHA-256, `pickle.dumps`, the OpenAI
  `embed_documents` call, and the `np.float32 ... .tobytes()` encoding of an
  embedding vector) are abstract function fields of an `Ext` record.
  `pickle.loads (pickle.dumps d) = d` (the round trip in
  `process_local_file`) is modelled by reusing `d` directly.  Embedding
  vectors are modelled as `List Int`; IEEE-754 float semantics are out of
  scope and no claim depends on them.
* Storage failures are injected by a `StorageOracle` of booleans, one per
  fallible operation.  Each SQL operation of the source is a single
  transaction ending in `conn.commit()`, so a failing operation commits
  nothing: the model leaves the store unchanged on a failing operation.
* `check_data_hash`, `delete_all_data_hashes` and `update_data_hash` wrap
  their bodies in `try/except` and swallow the exception (printing it), so
  in the model they never propagate an error; `insert_data` has no handler,
  so its failure propagates out of `process_local_file`, which we model
  with `Except`.
* Every run also produces a trace of committed effects (`Event`), used to
  settle ordering and "no writes" claims.
-/

namespace DataProcessing

/-- A row of the `faq_embeddings` table: `(question, answer, embedding)`
where the embedding bytes are the serialized provider vector. -/
structure Row where
  question : String
  answer : String
  embedding : List Int
deriving DecidableEq, Repr

/-- The persisted state: the `faq_embeddings` rows (in insertion order) and
the `data_hash.file_hash` values. -/
structure Store where
  faq : List Row
  hashes : List String
deriving DecidableEq, Repr

/-- The input dataset (a pandas `DataFrame`): named columns of strings. -/
structure Dataset where
  cols : List (String × List String)
deriving DecidableEq, Repr

/-- `c in csv_data.columns` of the source. -/
def Dataset.hasCol (d : Dataset) (c : String) : Bool :=
  d.cols.any (fun p => p.1 = c)

/-- `csv_data[c].tolist()` of the source (defaults to `[]`; only evaluated
under a `hasCol` guard in the workflow, as in the source). -/
def Dataset.getCol (d : Dataset) (c : String) : List String :=
  ((d.cols.find? (fun p => p.1 = c)).map Prod.snd).getD []

/-- Abstract external functions of the workflow (see module docstring). -/
structure Ext where
  /-- `hashlib.sha256(·).hexdigest()`. -/
  sha256hex : List Nat → String
  /-- `pickle.dumps`. -/
  pickleDumps : Dataset → List Nat
  /-- `self.embeddings.embed_documents`: the provider call, which may fail. -/
  embed : List String → Except String (List (List Int))
  /-- `np.array(emb).astype(np.float32).tobytes()`. -/
  tobytes : List Int → List Int

/-- Failure injection for the storage operations: `true` means the SQL of
that operation raises before its `conn.commit()`. -/
structure StorageOracle where
  checkFails : Bool
  insertFails : Bool
  deleteHashesFails : Bool
  updateHashFails : Bool
deriving DecidableEq, Repr

/-- Errors a run of `process_local_file` can propagate: the `ValueError` for
missing columns, a provider failure, and a storage failure escaping
`insert_data` (the one storage operation without a `try/except`). -/
inductive RunError where
  | schemaError
  | providerError (msg : String)
  | storageError
deriving DecidableEq, Repr

/-- Committed effects of a run, in order of occurrence. -/
inductive Event where
  | checkedHash (h : String) (result : Bool)
  | embedCalled (texts : List String)
  | rowsReplaced (rows : List Row)
  | hashesDeleted
  | hashUpdated (h : String)
deriving DecidableEq, Repr

/-- `DBops.calculate_file_hash`: `sha256(file_content).hexdigest()`.  The
source's `except` branch is unreachable for `bytes` input, so the model is
total. -/
def calculate_file_hash (sha256hex : List Nat → String)
    (file_content : List Nat) : String :=
  sha256hex file_content

/-- The fingerprint `process_local_file` computes for a dataset:
`calculate_file_hash(pickle.dumps(data_csv))`. -/
def fingerprint (ext : Ext) (d : Dataset) : String :=
  calculate_file_hash ext.sha256hex (ext.pickleDumps d)

/-- `DBops.check_data_hash`: `SELECT EXISTS(... WHERE file_hash = %s)`;
on any exception the source prints and returns `False`. -/
def check_data_hash (o : StorageOracle) (file_hash : String)
    (s : Store) : Bool :=
  if o.checkFails then false else file_hash ∈ s.hashes

/-- The list comprehension of `insert_data`:
`[(q, a, Binary(tobytes(emb))) for q, a, emb in zip(questions, answers, embeddings)]`
(Python `zip` truncates to the shortest input). -/
def zipRows (ext : Ext) : List String → List String → List (List Int) → List Row
  | q :: qs, a :: as_, e :: es => Row.mk q a (ext.tobytes e) :: zipRows ext qs as_ es
  | _, _, _ => []

/-- `DBops.insert_data`: one transaction doing `DELETE FROM faq_embeddings`
then the batch insert, committed at the end; a failure commits nothing and
propagates (no `try/except` in the source). -/
def insert_data (ext : Ext) (o : StorageOracle)
    (questions answers : List String) (embeddings : List (List Int))
    (s : Store) : Except RunError Unit × Store × List Event :=
  if o.insertFails then (.error .storageError, s, [])
  else
    let rows := zipRows ext questions answers embeddings
    (.ok (), { s with faq := rows }, [.rowsReplaced rows])

/-- `DBops.delete_all_data_hashes`: `DELETE FROM data_hash`, committed; on
any exception the source prints and returns normally (nothing committed). -/
def delete_all_data_hashes (o : StorageOracle) (s : Store) :
    Store × List Event :=
  if o.deleteHashesFails then (s, [])
  else ({ s with hashes := [] }, [.hashesDeleted])

/-- `DBops.update_data_hash`:
`INSERT INTO data_hash (file_hash) VALUES (%s) ON CONFLICT (file_hash) DO NOTHING`,
committed; on any exception the source prints and returns normally. -/
def update_data_hash (o : StorageOracle) (file_hash : String) (s : Store) :
    Store × List Event :=
  if o.updateHashFails then (s, [])
  else ({ s with hashes := if file_hash ∈ s.hashes then s.hashes
                           else s.hashes ++ [file_hash] },
        [.hashUpdated file_hash])

/-- `DBops.process_local_file`, the synchronization run.  Returns the
outcome (`ok` or the propagated error), the final store, and the trace of
committed effects. -/
def process_local_file (ext : Ext) (o : StorageOracle) (d : Dataset)
    (s : Store) : Except RunError Unit × Store × List Event :=
  let file_content := ext.pickleDumps d
  let file_hash := calculate_file_hash ext.sha256hex file_content
  if check_data_hash o file_hash s then
    (.ok (), s, [.checkedHash file_hash true])
  else
    -- csv_data = pickle.loads file_content, i.e. d again
    if d.hasCol "questions" && d.hasCol "answers" then
      let questions := d.getCol "questions"
      let answers := d.getCol "answers"
      match ext.embed questions with
      | .error e =>
          (.error (.providerError e), s,
           [.checkedHash file_hash false, .embedCalled questions])
      | .ok embeddings =>
          match insert_data ext o questions answers embeddings s with
          | (.error err, s2, t2) =>
              (.error err, s2,
               [.checkedHash file_hash false, .embedCalled questions] ++ t2)
          | (.ok _, s2, t2) =>
              let (s3, t3) := delete_all_data_hashes o s2
              let (s4, t4) := update_data_hash o file_hash s3
              (.ok (), s4,
               [.checkedHash file_hash false, .embedCalled questions]
                 ++ t2 ++ t3 ++ t4)
    else
      (.error .schemaError, s, [.checkedHash file_hash false])

/-! ## Trace predicates -/

/-- Events that modify the `data_hash` table. -/
def isHashMod : Event → Bool
  | .hashesDeleted => true
  | .hashUpdated _ => true
  | _ => false

/-- The committed replacement of the `faq_embeddings` rows. -/
def isRowsReplaced : Event → Bool
  | .rowsReplaced _ => true
  | _ => false

/-- Any committed write to storage. -/
def isWrite : Event → Bool
  | .rowsReplaced _ => true
  | .hashesDeleted => true
  | .hashUpdated _ => true
  | _ => false

/-- `rowsBeforeHashMods t seen = true` iff every hash-table modification in
`t` is preceded by a completed row replacement (`seen` records whether one
already happened). -/
def rowsBeforeHashMods : List Event → Bool → Bool
  | [], _ => true
  | e :: rest, seen =>
      (!(isHashMod e) || seen) && rowsBeforeHashMods rest (seen || isRowsReplaced e)

/-! ## Concrete instances (used to witness the hypotheses of the theorems) -/

/-- A concrete external environment whose provider call succeeds. -/
def extC : Ext where
  sha256hex := fun bs => toString bs
  pickleDumps := fun d => [d.cols.length]
  embed := fun qs => .ok (qs.map fun _ => [0])
  tobytes := fun e => e

/-- A concrete external environment whose provider call fails. -/
def extFail : Ext where
  sha256hex := fun bs => toString bs
  pickleDumps := fun d => [d.cols.length]
  embed := fun _ => .error "rate limited"
  tobytes := fun e => e

/-- All storage operations succeed. -/
def noFail : StorageOracle := ⟨false, false, false, false⟩

/-- Only `insert_data` fails. -/
def insFail : StorageOracle := ⟨false, true, false, false⟩

/-- Both hash-table operations fail. -/
def hashOpsFail : StorageOracle := ⟨false, false, true, true⟩

/-- Only `delete_all_data_hashes` fails. -/
def delFailOnly : StorageOracle := ⟨false, false, true, false⟩

/-- A dataset with no columns at all. -/
def D0 : Dataset := ⟨[]⟩

/-- A well-formed two-row dataset. -/
def D1 : Dataset := ⟨[("questions", ["q1", "q2"]), ("answers", ["a1", "a2"])]⟩

/-- The empty store. -/
def s0 : Store := ⟨[], []⟩

/-- A store holding one stale hash record. -/
def sOld : Store := ⟨[], ["old"]⟩

/-! ## Characterization of the five possible run shapes -/

/-- If the stored fingerprint is current and the check succeeds, the run is
a read-only no-op. -/
theorem run_current (ext : Ext) (o : StorageOracle) (d : Dataset) (s : Store)
    (hok : o.checkFails = false) (hcur : fingerprint ext d ∈ s.hashes) :
    process_local_file ext o d s =
      (.ok (), s, [.checkedHash (fingerprint ext d) true]) := by
  unfold process_local_file check_data_hash
  simp [hok, fingerprint] at hcur ⊢
  simp [hcur]

/-- If the fingerprint is stale and a required column is missing, the run
raises the schema error having committed nothing. -/
theorem run_schema_error (ext : Ext) (o : StorageOracle) (d : Dataset)
    (s : Store) (hstale : fingerprint ext d ∉ s.hashes)
    (hmiss : ¬(d.hasCol "questions" = true ∧ d.hasCol "answers" = true)) :
    process_local_file ext o d s =
      (.error .schemaError, s, [.checkedHash (fingerprint ext d) false]) := by
  unfold process_local_file check_data_hash
  simp [fingerprint] at hstale ⊢
  cases hq : d.hasCol "questions" <;> cases ha : d.hasCol "answers" <;>
    simp_all

/-- If the fingerprint is stale, both columns are present, and the provider
call fails, the run propagates the provider error having committed
nothing. -/
theorem run_provider_error (ext : Ext) (o : StorageOracle) (d : Dataset)
    (s : Store) (msg : String) (hstale : fingerprint ext d ∉ s.hashes)
    (hq : d.hasCol "questions" = true) (ha : d.hasCol "answers" = true)
    (hembed : ext.embed (d.getCol "questions") = .error msg) :
    process_local_file ext o d s =
      (.error (.providerError msg), s,
       [.checkedHash (fingerprint ext d) false,
        .embedCalled (d.getCol "questions")]) := by
  unfold process_local_file check_data_hash
  simp [fingerprint] at hstale ⊢
  simp [hstale, hq, ha, hembed]

/-- If the fingerprint is stale, both columns are present, the provider call
succeeds, but `insert_data` fails, the run propagates the storage error
having committed nothing. -/
theorem run_insert_fail (ext : Ext) (o : StorageOracle) (d : Dataset)
    (s : Store) (embs : List (List Int))
    (hstale : fingerprint ext d ∉ s.hashes)
    (hq : d.hasCol "questions" = true) (ha : d.hasCol "answers" = true)
    (hembed : ext.embed (d.getCol "questions") = .ok embs)
    (hins : o.insertFails = true) :
    process_local_file ext o d s =
      (.error .storageError, s,
       [.checkedHash (fingerprint ext d) false,
        .embedCalled (d.getCol "questions")]) := by
  unfold process_local_file check_data_hash insert_data
  simp [fingerprint] at hstale ⊢
  simp [hstale, hq, ha, hembed, hins]

/-- A fully successful refresh: rows replaced, then all hash records
deleted, then the new fingerprint inserted, in that order. -/
theorem run_refresh_success (ext : Ext) (o : StorageOracle) (d : Dataset)
    (s : Store) (embs : List (List Int))
    (hstale : fingerprint ext d ∉ s.hashes)
    (hq : d.hasCol "questions" = true) (ha : d.hasCol "answers" = true)
    (hembed : ext.embed (d.getCol "questions") = .ok embs)
    (hins : o.insertFails = false) (hdel : o.deleteHashesFails = false)
    (hupd : o.updateHashFails = false) :
    process_local_file ext o d s =
      (.ok (),
       { faq := zipRows ext (d.getCol "questions") (d.getCol "answers") embs,
         hashes := [fingerprint ext d] },
       [.checkedHash (fingerprint ext d) false,
        .embedCalled (d.getCol "questions"),
        .rowsReplaced (zipRows ext (d.getCol "questions") (d.getCol "answers") embs),
        .hashesDeleted, .hashUpdated (fingerprint ext d)]) := by
  unfold process_local_file check_data_hash insert_data
    delete_all_data_hashes update_data_hash
  simp [fingerprint] at hstale ⊢
  simp [hstale, hq, ha, hembed, hins, hdel, hupd]

/-- A refresh whose two hash-table operations both fail: the rows are still
replaced, the hash table keeps its previous contents, and the run completes
without error (the failures are swallowed). -/
theorem run_refresh_hashops_fail (ext : Ext) (o : StorageOracle) (d : Dataset)
    (s : Store) (embs : List (List Int))
    (hstale : fingerprint ext d ∉ s.hashes)
    (hq : d.hasCol "questions" = true) (ha : d.hasCol "answers" = true)
    (hembed : ext.embed (d.getCol "questions") = .ok embs)
    (hins : o.insertFails = false) (hdel : o.deleteHashesFails = true)
    (hupd : o.updateHashFails = true) :
    process_local_file ext o d s =
      (.ok (),
       { faq := zipRows ext (d.getCol "questions") (d.getCol "answers") embs,
         hashes := s.hashes },
       [.checkedHash (fingerprint ext d) false,
        .embedCalled (d.getCol "questions"),
        .rowsReplaced (zipRows ext (d.getCol "questions") (d.getCol "answers") embs)]) := by
  unfold process_local_file check_data_hash insert_data
    delete_all_data_hashes update_data_hash
  simp [fingerprint] at hstale ⊢
  simp [hstale, hq, ha, hembed, hins, hdel, hupd]

/-! ## List-level lemmas about the row construction -/

/-- Under equal input lengths, `zipRows` produces one row per input pair. -/
theorem zipRows_length (ext : Ext) :
    ∀ (qs as_ : List String) (es : List (List Int)),
      qs.length = as_.length → as_.length = es.length →
      (zipRows ext qs as_ es).length = qs.length := by
  intro qs
  induction qs with
  | nil => intro as_ es _ _; cases as_ <;> cases es <;> simp [zipRows]
  | cons q qs ih =>
    intro as_ es h1 h2
    cases as_ with
    | nil => simp at h1
    | cons a as_ =>
      cases es with
      | nil => simp at h2
      | cons e es =>
        simp only [zipRows, List.length_cons, Nat.add_right_cancel_iff]
        exact ih as_ es (by simpa using h1) (by simpa using h2)

/-- Under equal input lengths, row `i` of `zipRows` is built from the
`i`-th question, the `i`-th answer, and the serialized `i`-th embedding. -/
theorem zipRows_getD (ext : Ext) :
    ∀ (qs as_ : List String) (es : List (List Int)) (i : Nat),
      i < qs.length → qs.length = as_.length → as_.length = es.length →
      (zipRows ext qs as_ es).getD i (Row.mk "" "" []) =
        Row.mk (qs.getD i "") (as_.getD i "") (ext.tobytes (es.getD i [])) := by
  intro qs
  induction qs with
  | nil => intro as_ es i hi _ _; simp at hi
  | cons q qs ih =>
    intro as_ es i hi h1 h2
    cases as_ with
    | nil => simp at h1
    | cons a as_ =>
      cases es with
      | nil => simp at h2
      | cons e es =>
        cases i with
        | zero => simp [zipRows]
        | succ i =>
          simp only [zipRows, List.getD_cons_succ]
          exact ih as_ es i (by simpa using hi) (by simpa using h1)
            (by simpa using h2)

/-! ## The claims -/

/-- C1: In every synchronization run, every modification of the hash
records (`hashesDeleted` or `hashUpdated` in the committed-effect trace) is
preceded by a completed replacement of the embedding rows
(`rowsReplaced`); the hash record is never updated before the rows are
replaced. -/
theorem C1_rows_replaced_before_hash_mods (ext : Ext) (o : StorageOracle)
    (d : Dataset) (s : Store) :
    rowsBeforeHashMods (process_local_file ext o d s).2.2 false = true := by
  obtain ⟨cf, insf, delf, updf⟩ := o
  unfold process_local_file check_data_hash insert_data
    delete_all_data_hashes update_data_hash
  cases cf <;> cases insf <;> cases delf <;> cases updf <;>
    cases hq : d.hasCol "questions" <;> cases ha : d.hasCol "answers" <;>
    cases hembed : ext.embed (d.getCol "questions") <;>
    by_cases hmem :
      calculate_file_hash ext.sha256hex (ext.pickleDumps d) ∈ s.hashes <;>
    simp_all [rowsBeforeHashMods, isHashMod, isRowsReplaced]

/-- C3: If the fingerprint is stale, both columns are present, and the
embedding-provider call fails, `process_local_file` aborts with the
provider error and the store (both tables) is exactly its pre-run state:
the trace holds no write events. -/
theorem C3_provider_failure_preserves_state (ext : Ext) (o : StorageOracle)
    (d : Dataset) (s : Store) (msg : String)
    (hstale : fingerprint ext d ∉ s.hashes)
    (hq : d.hasCol "questions" = true) (ha : d.hasCol "answers" = true)
    (hembed : ext.embed (d.getCol "questions") = .error msg) :
    process_local_file ext o d s =
      (.error (.providerError msg), s,
       [.checkedHash (fingerprint ext d) false,
        .embedCalled (d.getCol "questions")]) :=
  run_provider_error ext o d s msg hstale hq ha hembed

/-- Witness for C3 at a concrete failing provider. -/
theorem C3_witness :
    fingerprint extFail D1 ∉ s0.hashes ∧
    D1.hasCol "questions" = true ∧ D1.hasCol "answers" = true ∧
    extFail.embed (D1.getCol "questions") = .error "rate limited" ∧
    process_local_file extFail noFail D1 s0 =
      (.error (.providerError "rate limited"), s0,
       [.checkedHash (fingerprint extFail D1) false,
        .embedCalled (D1.getCol "questions")]) :=
  ⟨by simp [s0], by decide, by decide, rfl,
   C3_provider_failure_preserves_state extFail noFail D1 s0 "rate limited"
     (by simp [s0]) (by decide) (by decide) rfl⟩

/-- C4: If the fingerprint is stale and a required column is missing,
`process_local_file` raises the schema error (the source's `ValueError`)
having performed zero storage writes and without calling the embedding
provider: the trace holds only the hash check. -/
theorem C4_schema_error_before_provider (ext : Ext) (o : StorageOracle)
    (d : Dataset) (s : Store)
    (hstale : fingerprint ext d ∉ s.hashes)
    (hmiss : ¬(d.hasCol "questions" = true ∧ d.hasCol "answers" = true)) :
    process_local_file ext o d s =
      (.error .schemaError, s, [.checkedHash (fingerprint ext d) false]) :=
  run_schema_error ext o d s hstale hmiss

/-- Witness for C4 at a concrete column-free dataset. -/
theorem C4_witness :
    fingerprint extC D0 ∉ s0.hashes ∧
    ¬(D0.hasCol "questions" = true ∧ D0.hasCol "answers" = true) ∧
    process_local_file extC noFail D0 s0 =
      (.error .schemaError, s0, [.checkedHash (fingerprint extC D0) false]) :=
  ⟨by simp [s0], by decide,
   C4_schema_error_before_provider extC noFail D0 s0 (by simp [s0]) (by decide)⟩

/-- C5: `check_data_hash` returns `true` exactly when a `data_hash` record
with the given fingerprint exists and the existence query succeeded; when
the query fails it returns `false` (treat as stale) instead of propagating
the storage error (its result type is a plain `Bool`). -/
theorem C5_check_data_hash_spec (o : StorageOracle) (h : String) (s : Store) :
    check_data_hash o h s = (!o.checkFails && decide (h ∈ s.hashes)) := by
  unfold check_data_hash
  cases hc : o.checkFails <;> simp

/-- C6: A fully successful refresh leaves the `data_hash` table holding
exactly one record, the fingerprint of the just-ingested dataset, and the
trace shows all prior hash records deleted before the new fingerprint is
inserted. -/
theorem C6_single_current_hash_record (ext : Ext) (o : StorageOracle)
    (d : Dataset) (s : Store) (embs : List (List Int))
    (hstale : fingerprint ext d ∉ s.hashes)
    (hq : d.hasCol "questions" = true) (ha : d.hasCol "answers" = true)
    (hembed : ext.embed (d.getCol "questions") = .ok embs)
    (hins : o.insertFails = false) (hdel : o.deleteHashesFails = false)
    (hupd : o.updateHashFails = false) :
    process_local_file ext o d s =
      (.ok (),
       { faq := zipRows ext (d.getCol "questions") (d.getCol "answers") embs,
         hashes := [fingerprint ext d] },
       [.checkedHash (fingerprint ext d) false,
        .embedCalled (d.getCol "questions"),
        .rowsReplaced (zipRows ext (d.getCol "questions") (d.getCol "answers") embs),
        .hashesDeleted, .hashUpdated (fingerprint ext d)]) :=
  run_refresh_success ext o d s embs hstale hq ha hembed hins hdel hupd

/-- Witness for C6 at a concrete successful refresh. -/
theorem C6_witness :
    fingerprint extC D1 ∉ sOld.hashes ∧
    extC.embed (D1.getCol "questions") = .ok [[0], [0]] ∧
    process_local_file extC noFail D1 sOld =
      (.ok (),
       { faq := zipRows extC (D1.getCol "questions") (D1.getCol "answers") [[0], [0]],
         hashes := [fingerprint extC D1] },
       [.checkedHash (fingerprint extC D1) false,
        .embedCalled (D1.getCol "questions"),
        .rowsReplaced (zipRows extC (D1.getCol "questions") (D1.getCol "answers") [[0], [0]]),
        .hashesDeleted, .hashUpdated (fingerprint extC D1)]) :=
  ⟨by decide, rfl,
   C6_single_current_hash_record extC noFail D1 sOld [[0], [0]]
     (by decide) (by decide) (by decide) rfl rfl rfl rfl⟩

/-- C7: the fingerprint (sha256 hexdigest of the pickled dataset) is
deterministic: computed twice on the same dataset it agrees, and
`calculate_file_hash` maps byte-identical serialized input to the same
digest. -/
theorem C7_fingerprint_deterministic (ext : Ext) (d : Dataset)
    (hash : List Nat → String) (c₁ c₂ : List Nat) (hbytes : c₁ = c₂) :
    fingerprint ext d = fingerprint ext d ∧
    calculate_file_hash hash c₁ = calculate_file_hash hash c₂ :=
  ⟨rfl, by rw [hbytes]⟩

/-- Witness for C7 at concrete bytes. -/
theorem C7_witness :
    ([1, 2, 3] : List Nat) = [1, 2, 3] ∧
    (fingerprint extC D1 = fingerprint extC D1 ∧
     calculate_file_hash extC.sha256hex [1, 2, 3] =
       calculate_file_hash extC.sha256hex [1, 2, 3]) :=
  ⟨rfl, C7_fingerprint_deterministic extC D1 extC.sha256hex [1, 2, 3] [1, 2, 3] rfl⟩

/-- C8: for `n` question/answer pairs and `n` provider embeddings, a
successful `insert_data` stores exactly `n` rows, and the row at index `i`
is built from `questions[i]`, `answers[i]`, and the serialized embedding at
index `i` of the provider's response: the 1-to-1 index correspondence is
preserved. -/
theorem C8_index_correspondence (ext : Ext) (o : StorageOracle)
    (qs as_ : List String) (embs : List (List Int)) (s : Store) (n i : Nat)
    (hq : qs.length = n) (ha : as_.length = n) (he : embs.length = n)
    (hi : i < n) (hins : o.insertFails = false) :
    ((insert_data ext o qs as_ embs s).2.1.faq).length = n ∧
    ((insert_data ext o qs as_ embs s).2.1.faq).getD i (Row.mk "" "" []) =
      Row.mk (qs.getD i "") (as_.getD i "") (ext.tobytes (embs.getD i [])) := by
  unfold insert_data
  simp only [hins, Bool.false_eq_true, if_false]
  constructor
  · rw [zipRows_length ext qs as_ embs (by omega) (by omega)]; omega
  · exact zipRows_getD ext qs as_ embs i (by omega) (by omega) (by omega)

/-- Witness for C8 at a concrete two-row insert. -/
theorem C8_witness :
    (2 : Nat) = 2 ∧ (1 : Nat) < 2 ∧
    (((insert_data extC noFail ["q1", "q2"] ["a1", "a2"] [[7], [9]] s0).2.1.faq).length = 2 ∧
     ((insert_data extC noFail ["q1", "q2"] ["a1", "a2"] [[7], [9]] s0).2.1.faq).getD 1 (Row.mk "" "" []) =
       Row.mk (["q1", "q2"].getD 1 "") (["a1", "a2"].getD 1 "")
         (extC.tobytes ([[7], [9]].getD 1 []))) :=
  ⟨rfl, by decide,
   C8_index_correspondence extC noFail ["q1", "q2"] ["a1", "a2"] [[7], [9]]
     s0 2 1 rfl rfl rfl (by decide) rfl⟩

/-- C10: if the dataset's fingerprint already matches a stored hash record
and the existence check succeeds, `process_local_file` returns without
raising and performs no storage writes — even when the dataset lacks the
required columns, since column validation is reached only on the stale
path (`d` carries no column hypothesis here). -/
theorem C10_current_skips_validation (ext : Ext) (o : StorageOracle)
    (d : Dataset) (s : Store)
    (hok : o.checkFails = false) (hcur : fingerprint ext d ∈ s.hashes) :
    process_local_file ext o d s =
      (.ok (), s, [.checkedHash (fingerprint ext d) true]) :=
  run_current ext o d s hok hcur

/-- A store already holding the fingerprint of the column-free dataset. -/
def sCur : Store := ⟨[], [fingerprint extC D0]⟩

/-- Witness for C10: the column-free dataset `D0` is accepted without
validation when its fingerprint is current. -/
theorem C10_witness :
    noFail.checkFails = false ∧ fingerprint extC D0 ∈ sCur.hashes ∧
    D0.hasCol "questions" = false ∧
    process_local_file extC noFail D0 sCur =
      (.ok (), sCur, [.checkedHash (fingerprint extC D0) true]) :=
  ⟨rfl, by simp [sCur], by decide,
   C10_current_skips_validation extC noFail D0 sCur rfl (by simp [sCur])⟩

/-- C2 counterexample: with the column-free dataset `D0` the first run
raises the schema error and writes nothing, so the second run checks the
*same* absent fingerprint, finds `false` (not `true` as the claim states),
and raises again instead of being a silent no-op. -/
theorem C2_counterexample :
    (process_local_file extC noFail D0 s0).1 = .error .schemaError ∧
    check_data_hash noFail (fingerprint extC D0)
      ((process_local_file extC noFail D0 s0).2.1) = false ∧
    (process_local_file extC noFail D0
        ((process_local_file extC noFail D0 s0).2.1)).1 = .error .schemaError :=
  ⟨rfl, rfl, rfl⟩

/-- C2 (amended): provided every storage operation succeeds and the first
run completes without error, a second run of `process_local_file` with the
same dataset finds the hash current, performs no storage writes and no
embedding-provider call (its trace is the bare hash check), and leaves the
store exactly as the first run left it. -/
theorem C2_idempotent_after_success (ext : Ext) (d : Dataset) (s : Store)
    (hok : (process_local_file ext noFail d s).1 = .ok ()) :
    process_local_file ext noFail d ((process_local_file ext noFail d s).2.1) =
      (.ok (), (process_local_file ext noFail d s).2.1,
       [.checkedHash (fingerprint ext d) true]) := by
  by_cases hcur : fingerprint ext d ∈ s.hashes
  · rw [run_current ext noFail d s rfl hcur]
    exact run_current ext noFail d s rfl hcur
  · by_cases hcols : d.hasCol "questions" = true ∧ d.hasCol "answers" = true
    · obtain ⟨hq, ha⟩ := hcols
      cases hembed : ext.embed (d.getCol "questions") with
      | error msg =>
        rw [run_provider_error ext noFail d s msg hcur hq ha hembed] at hok
        simp at hok
      | ok embs =>
        rw [run_refresh_success ext noFail d s embs hcur hq ha hembed rfl rfl rfl]
        exact run_current ext noFail d _ rfl (by simp)
    · rw [run_schema_error ext noFail d s hcur hcols] at hok
      simp at hok

/-- Witness for C2 (amended) at a concrete successful first run. -/
theorem C2_witness :
    (process_local_file extC noFail D1 s0).1 = .ok () ∧
    process_local_file extC noFail D1 ((process_local_file extC noFail D1 s0).2.1) =
      (.ok (), (process_local_file extC noFail D1 s0).2.1,
       [.checkedHash (fingerprint extC D1) true]) :=
  ⟨rfl, C2_idempotent_after_success extC D1 s0 rfl⟩

/-- C9 counterexample: with `delete_all_data_hashes` failing, the refresh
is *not* aborted: the run still completes with `.ok`, and
`update_data_hash` still commits afterwards, leaving the stale record
`"old"` next to the new fingerprint. -/
theorem C9_counterexample :
    delFailOnly.deleteHashesFails = true ∧
    process_local_file extC delFailOnly D1 sOld =
      (.ok (),
       { faq := [⟨"q1", "a1", [0]⟩, ⟨"q2", "a2", [0]⟩],
         hashes := ["old", "[2]"] },
       [.checkedHash "[2]" false, .embedCalled ["q1", "q2"],
        .rowsReplaced [⟨"q1", "a1", [0]⟩, ⟨"q2", "a2", [0]⟩],
        .hashUpdated "[2]"]) :=
  ⟨rfl, rfl⟩

/-- C9 (amended): a storage failure during `insert_data` commits nothing,
leaves the store in its pre-run state, and aborts the refresh with the
storage error; a storage failure during `delete_all_data_hashes` or
`update_data_hash` commits nothing by the failing unit and leaves the hash
table's previous state intact, but is swallowed: the refresh continues and
completes without error. -/
theorem C9_storage_failure_isolation (ext : Ext) (o₁ o₂ : StorageOracle)
    (d : Dataset) (s s' : Store) (embs : List (List Int)) (h' : String)
    (hstale : fingerprint ext d ∉ s.hashes)
    (hq : d.hasCol "questions" = true) (ha : d.hasCol "answers" = true)
    (hembed : ext.embed (d.getCol "questions") = .ok embs)
    (hins₁ : o₁.insertFails = true)
    (hins₂ : o₂.insertFails = false)
    (hdel₂ : o₂.deleteHashesFails = true) (hupd₂ : o₂.updateHashFails = true) :
    process_local_file ext o₁ d s =
      (.error .storageError, s,
       [.checkedHash (fingerprint ext d) false,
        .embedCalled (d.getCol "questions")]) ∧
    delete_all_data_hashes o₂ s' = (s', []) ∧
    update_data_hash o₂ h' s' = (s', []) ∧
    process_local_file ext o₂ d s =
      (.ok (),
       { faq := zipRows ext (d.getCol "questions") (d.getCol "answers") embs,
         hashes := s.hashes },
       [.checkedHash (fingerprint ext d) false,
        .embedCalled (d.getCol "questions"),
        .rowsReplaced (zipRows ext (d.getCol "questions") (d.getCol "answers") embs)]) := by
  refine ⟨run_insert_fail ext o₁ d s embs hstale hq ha hembed hins₁, ?_, ?_,
    run_refresh_hashops_fail ext o₂ d s embs hstale hq ha hembed hins₂ hdel₂ hupd₂⟩
  · unfold delete_all_data_hashes; simp [hdel₂]
  · unfold update_data_hash; simp [hupd₂]

/-- Witness for C9 (amended) at concrete failing oracles. -/
theorem C9_witness :
    fingerprint extC D1 ∉ sOld.hashes ∧
    insFail.insertFails = true ∧ hashOpsFail.insertFails = false ∧
    (process_local_file extC insFail D1 sOld =
       (.error .storageError, sOld,
        [.checkedHash (fingerprint extC D1) false,
         .embedCalled (D1.getCol "questions")]) ∧
     delete_all_data_hashes hashOpsFail s0 = (s0, []) ∧
     update_data_hash hashOpsFail "x" s0 = (s0, []) ∧
     process_local_file extC hashOpsFail D1 sOld =
       (.ok (),
        { faq := zipRows extC (D1.getCol "questions") (D1.getCol "answers") [[0], [0]],
          hashes := sOld.hashes },
        [.checkedHash (fingerprint extC D1) false,
         .embedCalled (D1.getCol "questions"),
         .rowsReplaced (zipRows extC (D1.getCol "questions") (D1.getCol "answers") [[0], [0]])])) :=
  ⟨by decide, rfl, rfl,
   C9_storage_failure_isolation extC insFail hashOpsFail D1 sOld s0 [[0], [0]] "x"
     (by decide) (by decide) (by decide) rfl rfl rfl rfl rfl⟩

end DataProcessing
